import Mathlib

/-!
Shallow embedding of the route draft/editing engine and persistence-policy
coordinator of the route-visualizer application: `src/hooks/useRoutes.ts`
(`calculateDistance`, `addRoute`, `updateRoute`, `deleteRoute`, `selectRoute`,
`fetchRouteData`), `src/lib/api.ts` (`createRoute` validation, `fetchRoutes`
conversion pipeline) and `src/types/route.ts` (`routeResponseToFeature`).

JavaScript numbers are modelled as real numbers.  The remote route service and
the authentication gate are injected as explicit parameters of the operations,
mirroring the dependency-injection style of the specification; notifications
(`toast`) and the `onAuthRequired` callback are collected as explicit effect
data in the operation results.
-/

namespace RouteViz

/-- In-memory coordinate `{lat, lng}` (`Coordinates` in src/types/route.ts). -/
structure Coordinates where
  lat : ℝ
  lng : ℝ

/-- JavaScript `Math.atan2 y x`: quadrant-aware arctangent. -/
noncomputable def atan2 (y x : ℝ) : ℝ :=
  if 0 < x then Real.arctan (y / x)
  else if x < 0 ∧ 0 ≤ y then Real.arctan (y / x) + Real.pi
  else if x < 0 ∧ y < 0 then Real.arctan (y / x) - Real.pi
  else if x = 0 ∧ 0 < y then Real.pi / 2
  else if x = 0 ∧ y < 0 then -(Real.pi / 2)
  else 0

/-- Haversine intermediate value `a` for one segment, from the loop body of
`calculateDistance` (src/hooks/useRoutes.ts lines 70-76):
`sin(dLat/2)^2 + cos(lat1)*cos(lat2)*sin(dLng/2)^2` with latitudes converted
to radians. -/
noncomputable def hav (p q : Coordinates) : ℝ :=
  Real.sin ((q.lat * Real.pi / 180 - p.lat * Real.pi / 180) / 2) ^ 2 +
    Real.cos (p.lat * Real.pi / 180) * Real.cos (q.lat * Real.pi / 180) *
      Real.sin ((q.lng - p.lng) * Real.pi / 180 / 2) ^ 2

/-- One haversine segment of `calculateDistance`:
`6371000 * (2 * atan2(sqrt a, sqrt (1 - a)))`. -/
noncomputable def segmentDistance (p q : Coordinates) : ℝ :=
  6371000 * (2 * atan2 (Real.sqrt (hav p q)) (Real.sqrt (1 - hav p q)))

/-- `calculateDistance` (src/hooks/useRoutes.ts lines 67-81): sum of the
haversine segment lengths of consecutive coordinate pairs; `0` for zero or one
points. -/
noncomputable def calculateDistance : List Coordinates → ℝ
  | [] => 0
  | [_] => 0
  | p :: q :: rest => segmentDistance p q + calculateDistance (q :: rest)

/-- Derived waypoint: coordinate plus display label and order
(`Waypoint` in src/types/route.ts). -/
structure Waypoint where
  lat : ℝ
  lng : ℝ
  name : String
  order : ℕ

/-- `RouteProperties` (src/types/route.ts): the in-memory metadata of a stored
route.  Optional TypeScript fields are `Option`s. -/
structure RouteProperties where
  id : String
  distance : ℝ
  duration : ℝ
  routeName : String
  roadType : Option String
  waypoints : Option (List Waypoint)
  createdAt : Option String
  color : Option String
  region : Option String
  minAltitude : Option ℝ
  maxAltitude : Option ℝ
  description : Option String
  trekName : Option String
  durationDays : Option ℝ
  isActive : Option Bool

/-- `RouteFeature` (src/types/route.ts): wire-order geometry
(`[lng, lat]` pairs) plus properties.  The constant `type` tags
(`"Feature"`, `"LineString"`) are omitted. -/
structure RouteFeature where
  coordinates : List (ℝ × ℝ)
  properties : RouteProperties

/-- `RouteResponse` (src/types/route.ts): the remote service's detail record,
restricted to the fields the embedded operations read. -/
structure RouteResponse where
  id : String
  name : String
  trekName : Option String
  description : Option String
  region : String
  minAltitude : ℝ
  maxAltitude : ℝ
  durationDays : Option ℝ
  distanceKm : Option ℝ
  difficultyLevel : Option String
  geometryCoordinates : Option (List (ℝ × ℝ))
  isActive : Bool
  createdAt : String

/-- `RouteSummaryResponse` (src/types/route.ts), restricted to the fields read
by the `fetchRoutes` pipeline. -/
structure RouteSummary where
  id : String
  name : String
  region : String
  hasGeometry : Bool
  isActive : Bool

/-- `RouteRequest` (src/types/route.ts): the wire shape sent to the remote
create/update endpoints. -/
structure RouteRequest where
  name : String
  region : String
  minAltitude : ℝ
  maxAltitude : ℝ
  difficultyLevel : String
  distanceKm : Option ℝ
  geometryCoordinates : List (ℝ × ℝ)
  description : Option String
  trekName : Option String
  durationDays : Option ℝ
  isActive : Bool

/-- `ApiResponse<T>` (src/types/route.ts): `success` flag, optional payload,
optional message.  A `data` of `none` models JavaScript `null`/`undefined`. -/
structure ApiResult (α : Type) where
  success : Bool
  data : Option α
  message : Option String

/-- `RouteCreateOptions` (src/hooks/useRoutes.ts lines 22-33). -/
structure RouteCreateOptions where
  name : String
  region : String
  minAltitude : ℝ
  maxAltitude : ℝ
  difficultyLevel : String
  description : Option String
  trekName : Option String
  durationDays : Option ℝ
  distanceKm : Option ℝ
  coordinates : Option (List Coordinates)

/-- `Partial<RouteCreateOptions>` as consumed by `updateRoute`: every field
optional. -/
structure UpdateOptions where
  name : Option String := none
  region : Option String := none
  minAltitude : Option ℝ := none
  maxAltitude : Option ℝ := none
  difficultyLevel : Option String := none
  description : Option String := none
  trekName : Option String := none
  durationDays : Option ℝ := none
  distanceKm : Option ℝ := none
  coordinates : Option (List Coordinates) := none

/-- One `toast` notification (src/hooks/use-toast): title, description and
whether the `destructive` variant was used. -/
structure ToastMsg where
  title : String
  description : String
  destructive : Bool
deriving DecidableEq

/-- The `useRoutes` hook state that the persistence operations mutate:
the route collection and the single selection. -/
structure RoutesState where
  routes : List RouteFeature
  selectedRoute : Option RouteFeature

/-- Injected collaborators: `isAuthenticated` from src/lib/auth.ts and the
remote route service functions from src/lib/api.ts (mock-replaceable, as in
the specification's tests). -/
structure RoutesEnv where
  isAuthenticated : Bool
  createSvc : RouteRequest → ApiResult RouteResponse
  updateSvc : String → RouteRequest → ApiResult RouteResponse
  deleteSvc : String → ApiResult Unit

/-- Result of one persistence operation: the boolean returned to the caller,
the successor state, the toasts emitted, the number of `onAuthRequired`
invocations, and the remote requests issued. -/
structure OpResult where
  ok : Bool
  state : RoutesState
  toasts : List ToastMsg
  authRequiredCalls : ℕ
  requestsSent : List RouteRequest

/-- Selection invariant of the route collection (spec section 3): a non-null
selection references a route present in the collection. -/
def selectionInvariant (st : RoutesState) : Prop :=
  ∀ r, st.selectedRoute = some r →
    ∃ r', r' ∈ st.routes ∧ r'.properties.id = r.properties.id

/-- Substring test on character lists, used to model JavaScript
`String.prototype.includes`. -/
def charsContain (pat : List Char) : List Char → Bool
  | [] => pat.isEmpty
  | c :: rest => pat.isPrefixOf (c :: rest) || charsContain pat rest

/-- JavaScript `s.includes pat`. -/
def strContains (s pat : String) : Bool :=
  charsContain pat.toList s.toList

/-- Character-wise lowercasing, modelling JavaScript `toLowerCase` on the
ASCII messages the classifier sees. -/
def lowerChars (s : String) : List Char :=
  s.toList.map Char.toLower

/-- JavaScript `s.toLowerCase().includes pat` for an already-lowercase
pattern. -/
def strContainsLower (s pat : String) : Bool :=
  charsContain pat.toList (lowerChars s)

/-- JavaScript `s.startsWith pre`, modelled on the character lists. -/
def strStartsWith (s pre : String) : Bool :=
  pre.toList.isPrefixOf s.toList

/-- JavaScript `a || b` for an optional string with a string fallback: the
empty string is falsy. -/
def jsStrOr (a : Option String) (b : String) : String :=
  match a with
  | some s => if s = "" then b else s
  | none => b

/-- JavaScript `a || b` where both operands may be `undefined` (empty string
falsy). -/
def jsStrOrOpt (a b : Option String) : Option String :=
  match a with
  | some s => if s = "" then b else some s
  | none => b

/-- JavaScript `a || b` on optional numbers: `0` is falsy. -/
noncomputable def jsNumOrOpt (a b : Option ℝ) : Option ℝ :=
  match a with
  | some v => if v = 0 then b else some v
  | none => b

/-- Auth-failure classifier applied to a structured response message
(src/hooks/useRoutes.ts lines 237-241 and analogues): case-insensitive
substring match against `"unauthorized"`, `"not authenticated"`, `"401"`. -/
def respIsAuthError (msg : Option String) : Bool :=
  match msg with
  | none => false
  | some m =>
    strContainsLower m "unauthorized" || strContainsLower m "not authenticated" ||
      strContainsLower m "401"

/-- Auth-failure classifier applied to a caught error message
(src/hooks/useRoutes.ts lines 257-260): only `"unauthorized"` and `"401"`. -/
def errIsAuthError (m : String) : Bool :=
  strContainsLower m "unauthorized" || strContainsLower m "401"

/-- Toast emitted by `addRoute` when unauthenticated. -/
def authRequiredCreateToast : ToastMsg :=
  ⟨"Authentication Required", "Please sign in to create routes.", true⟩

/-- Toast emitted by `updateRoute` when unauthenticated on a server route. -/
def authRequiredUpdateToast : ToastMsg :=
  ⟨"Authentication Required", "Please sign in to update routes.", true⟩

/-- Toast emitted by `deleteRoute` when unauthenticated on a server route. -/
def authRequiredDeleteToast : ToastMsg :=
  ⟨"Authentication Required", "Please sign in to delete routes.", true⟩

/-- Toast emitted on an auth-classified remote failure. -/
def sessionExpiredToast : ToastMsg :=
  ⟨"Session Expired", "Please sign in again to continue.", true⟩

/-- Success toast of `addRoute`. -/
def routeCreatedToast (name : String) : ToastMsg :=
  ⟨"Route Created", "\"" ++ name ++ "\" has been saved to the server.", false⟩

/-- Success toast of `updateRoute`. -/
def routeUpdatedToast : ToastMsg :=
  ⟨"Route Updated", "Changes have been saved to the server.", false⟩

/-- Success toast of `deleteRoute`. -/
def routeDeletedToast : ToastMsg :=
  ⟨"Route Deleted", "Route has been removed from the server.", false⟩

/-- Generic error toast. -/
def errorToast (m : String) : ToastMsg := ⟨"Error", m, true⟩

/-- `routeResponseToFeature` (src/types/route.ts lines 325-349): converts a
remote `RouteResponse` into the in-memory `RouteFeature`.
`distance = (distanceKm || 0) * 1000`; `duration = (durationDays || 0) * 24 * 3600`
(for numbers, `x || 0` agrees with `getD 0` since `0` is its own fallback). -/
noncomputable def routeResponseToFeature (route : RouteResponse) : RouteFeature :=
  { coordinates := route.geometryCoordinates.getD []
    properties :=
      { id := route.id
        distance := route.distanceKm.getD 0 * 1000
        duration := route.durationDays.getD 0 * 24 * 3600
        routeName := route.name
        roadType := some (jsStrOr route.difficultyLevel "Unknown")
        waypoints := none
        createdAt := some route.createdAt
        color := none
        region := some route.region
        minAltitude := some route.minAltitude
        maxAltitude := some route.maxAltitude
        description := jsStrOrOpt route.description none
        trekName := jsStrOrOpt route.trekName none
        durationDays := jsNumOrOpt route.durationDays none
        isActive := some route.isActive } }

/-- Waypoint label: index 0 is `"Start"`, the last index `"End"`, interior
indices `"Point {i+1}"` (src/hooks/useRoutes.ts lines 319-329). -/
def waypointLabel (i total : ℕ) : String :=
  if i = 0 then "Start"
  else if i = total - 1 then "End"
  else "Point " ++ toString (i + 1)

/-- Waypoints recomputed from a point list on the local update path
(src/hooks/useRoutes.ts lines 319-329). -/
def waypointsFor (points : List Coordinates) : List Waypoint :=
  points.mapIdx fun i p => ⟨p.lat, p.lng, waypointLabel i points.length, i⟩

/-- Wire conversion of a point list: in-memory `{lat, lng}` to `[lng, lat]`
pairs. -/
def toWire (points : List Coordinates) : List (ℝ × ℝ) :=
  points.map fun p => (p.lng, p.lat)

/-- The in-place route mutation of `updateRoute`'s local branch
(src/hooks/useRoutes.ts lines 296-332): geometry replaced, distance and
duration overwritten, metadata fields merged with JavaScript `||`/`??`
semantics, waypoints recomputed. -/
def applyLocalUpdate (points : List Coordinates) (options : UpdateOptions)
    (distanceMeters duration : ℝ) (route : RouteFeature) : RouteFeature :=
  { coordinates := toWire points
    properties :=
      { route.properties with
        distance := distanceMeters
        duration := duration
        routeName := jsStrOr options.name route.properties.routeName
        roadType := jsStrOrOpt options.difficultyLevel route.properties.roadType
        region := jsStrOrOpt options.region route.properties.region
        minAltitude := options.minAltitude <|> route.properties.minAltitude
        maxAltitude := options.maxAltitude <|> route.properties.maxAltitude
        description := jsStrOrOpt options.description route.properties.description
        waypoints := some (waypointsFor points) } }

/-- The effective point list of `addRoute` (src/hooks/useRoutes.ts lines
185-189): a non-empty `options.coordinates` silently overrides the `points`
parameter. -/
def effectivePoints (points : List Coordinates) (options : RouteCreateOptions) :
    List Coordinates :=
  match options.coordinates with
  | some cs => if 0 < cs.length then cs else points
  | none => points

/-- The `RouteRequest` built by `addRoute`'s authenticated branch
(src/hooks/useRoutes.ts lines 204-222), as a function of the effective
points. -/
noncomputable def buildCreateRequest (routePoints : List Coordinates)
    (options : RouteCreateOptions) : RouteRequest :=
  { name := options.name
    region := options.region
    minAltitude := options.minAltitude
    maxAltitude := options.maxAltitude
    difficultyLevel := options.difficultyLevel
    distanceKm := some (options.distanceKm.getD (calculateDistance routePoints / 1000))
    geometryCoordinates := toWire routePoints
    description := options.description
    trekName := options.trekName
    durationDays := options.durationDays
    isActive := true }

/-- Shared failure handling of the remote branches (src/hooks/useRoutes.ts
lines 235-275 and analogues): classify the response message; an auth-pattern
match emits one `Session Expired` toast and one `onAuthRequired` call;
otherwise the thrown message is caught, re-classified against the narrower
catch-branch patterns, and surfaced as an error toast. -/
def remoteFailureResult (response : ApiResult RouteResponse) (defaultMsg : String)
    (st : RoutesState) (req : RouteRequest) : OpResult :=
  if respIsAuthError response.message then
    ⟨false, st, [sessionExpiredToast], 1, [req]⟩
  else
    let errorMessage := response.message.getD defaultMsg
    if errIsAuthError errorMessage then
      ⟨false, st, [sessionExpiredToast], 1, [req]⟩
    else
      ⟨false, st, [errorToast errorMessage], 0, [req]⟩

/-- Core of `addRoute` after the effective points are chosen
(src/hooks/useRoutes.ts lines 191-275). -/
noncomputable def addRouteCore (env : RoutesEnv) (routePoints : List Coordinates)
    (options : RouteCreateOptions) (st : RoutesState) : OpResult :=
  if !env.isAuthenticated then
    ⟨false, st, [authRequiredCreateToast], 1, []⟩
  else
    let routeRequest := buildCreateRequest routePoints options
    let response := env.createSvc routeRequest
    match response.success, response.data with
    | true, some data =>
      let newRoute := routeResponseToFeature data
      ⟨true, ⟨st.routes ++ [newRoute], some newRoute⟩,
        [routeCreatedToast options.name], 0, [routeRequest]⟩
    | true, none => remoteFailureResult response "Failed to create route" st routeRequest
    | false, _ => remoteFailureResult response "Failed to create route" st routeRequest

/-- `addRoute` (src/hooks/useRoutes.ts lines 167-278). -/
noncomputable def addRoute (env : RoutesEnv) (points : List Coordinates)
    (options : RouteCreateOptions) (st : RoutesState) : OpResult :=
  addRouteCore env (effectivePoints points options) options st

/-- The `RouteRequest` built by `updateRoute`'s authenticated branch
(src/hooks/useRoutes.ts lines 385-414), falling back to the existing route's
fields with JavaScript `||`/`??` semantics. -/
noncomputable def buildUpdateRequest (existing : Option RouteFeature)
    (options : UpdateOptions) (points : List Coordinates) : RouteRequest :=
  { name := jsStrOr options.name
      (jsStrOr (existing.map fun r => r.properties.routeName) "Updated Route")
    region := jsStrOr options.region
      (jsStrOr (existing.bind fun r => r.properties.region) "Custom")
    minAltitude := ((options.minAltitude).orElse
      (fun _ => existing.bind fun r => r.properties.minAltitude)).getD 0
    maxAltitude := ((options.maxAltitude).orElse
      (fun _ => existing.bind fun r => r.properties.maxAltitude)).getD 0
    difficultyLevel := jsStrOr options.difficultyLevel
      (jsStrOr (existing.bind fun r => r.properties.roadType) "MODERATE")
    distanceKm := some (options.distanceKm.getD (calculateDistance points / 1000))
    geometryCoordinates := toWire points
    description := jsStrOrOpt options.description
      (existing.bind fun r => r.properties.description)
    trekName := jsStrOrOpt options.trekName
      (existing.bind fun r => r.properties.trekName)
    durationDays := jsNumOrOpt options.durationDays
      (existing.bind fun r => r.properties.durationDays)
    isActive := true }

/-- `updateRoute` (src/hooks/useRoutes.ts lines 280-474). -/
noncomputable def updateRoute (env : RoutesEnv) (routeId : String)
    (points : List Coordinates) (options : UpdateOptions) (st : RoutesState) :
    OpResult :=
  let distanceKm := options.distanceKm.getD (calculateDistance points / 1000)
  let distanceMeters := distanceKm * 1000
  let existingRoute := st.routes.find? fun r => r.properties.id = routeId
  if strStartsWith routeId "local-" then
    let duration := options.durationDays.getD (distanceKm * 72)
    ⟨true,
      ⟨st.routes.map fun route =>
          if route.properties.id = routeId then
            applyLocalUpdate points options distanceMeters duration route
          else route,
        match st.selectedRoute with
        | some prev =>
          if prev.properties.id = routeId then
            some (applyLocalUpdate points options distanceMeters duration prev)
          else some prev
        | none => none⟩,
      [], 0, []⟩
  else if !env.isAuthenticated then
    ⟨false, st, [authRequiredUpdateToast], 1, []⟩
  else
    let routeRequest := buildUpdateRequest existingRoute options points
    let response := env.updateSvc routeId routeRequest
    match response.success, response.data with
    | true, some data =>
      let updatedRoute := routeResponseToFeature data
      ⟨true,
        ⟨st.routes.map fun route =>
            if route.properties.id = routeId then updatedRoute else route,
          some updatedRoute⟩,
        [routeUpdatedToast], 0, [routeRequest]⟩
    | true, none => remoteFailureResult response "Failed to update route" st routeRequest
    | false, _ => remoteFailureResult response "Failed to update route" st routeRequest

/-- Removal core shared by both `deleteRoute` branches
(src/hooks/useRoutes.ts lines 480-483 and 503-505): the route is filtered out
of the collection and, when it was the selected one, the selection becomes
null. -/
def removeRoute (routeId : String) (st : RoutesState) : RoutesState :=
  ⟨st.routes.filter fun r => r.properties.id ≠ routeId,
    match st.selectedRoute with
    | some prev => if prev.properties.id = routeId then none else some prev
    | none => none⟩

/-- `deleteRoute` (src/hooks/useRoutes.ts lines 476-555).  The remote branch
returns an `ApiResult Unit`; its failure classification mirrors `addRoute`. -/
def deleteRoute (env : RoutesEnv) (routeId : String) (st : RoutesState) :
    OpResult :=
  if strStartsWith routeId "local-" then
    ⟨true, removeRoute routeId st, [], 0, []⟩
  else if !env.isAuthenticated then
    ⟨false, st, [authRequiredDeleteToast], 1, []⟩
  else
    let response := env.deleteSvc routeId
    if response.success then
      ⟨true, removeRoute routeId st, [routeDeletedToast], 0, []⟩
    else if respIsAuthError response.message then
      ⟨false, st, [sessionExpiredToast], 1, []⟩
    else
      let errorMessage := response.message.getD "Failed to delete route"
      if errIsAuthError errorMessage then
        ⟨false, st, [sessionExpiredToast], 1, []⟩
      else
        ⟨false, st, [errorToast errorMessage], 0, []⟩

/-- `selectRoute` (src/hooks/useRoutes.ts lines 157-165): select only an id
found in the collection; otherwise leave the selection unchanged. -/
def selectRoute (routeId : String) (st : RoutesState) : RoutesState :=
  match st.routes.find? fun r => r.properties.id = routeId with
  | some r => ⟨st.routes, some r⟩
  | none => st

/-- Pure core of the `fetchRoutes` pipeline (src/lib/api.ts lines 110-164):
summaries are filtered to `hasGeometry && isActive`, capped at 20, resolved to
detail responses (`none` models a failed detail fetch), converted with
`routeResponseToFeature`, and kept only when the geometry is non-empty. -/
noncomputable def fetchRoutesCore (summaries : List RouteSummary)
    (detail : String → Option RouteResponse) : List RouteFeature :=
  (((summaries.filter fun s => s.hasGeometry && s.isActive).take 20).filterMap
      fun s => (detail s.id).map routeResponseToFeature).filter
    fun f => 0 < f.coordinates.length

/-- `fetchRouteData`'s state change (src/hooks/useRoutes.ts lines 104-114): a
successful response with a non-empty feature list replaces the collection and
selects the first feature; otherwise the state is unchanged and failure is
reported. -/
def applyFetchedRoutes (features : List RouteFeature) (st : RoutesState) :
    RoutesState × Bool :=
  if 0 < features.length then (⟨features, features.head?⟩, true)
  else (st, false)

/-- The local validation of `createRoute` (src/lib/api.ts lines 399-418),
producing the list of validation error messages. -/
noncomputable def validationErrors (route : RouteRequest) : List String :=
  (if route.name.length < 3 then ["Route name must be at least 3 characters"] else []) ++
    (if route.region = "" then ["Region is required"] else []) ++
      (if route.minAltitude < 0 then ["Minimum altitude must be 0 or positive"] else []) ++
        (if route.maxAltitude ≤ 0 then ["Maximum altitude must be positive"] else []) ++
          (if route.difficultyLevel = "" then ["Difficulty level is required"] else []) ++
            (if route.geometryCoordinates.length < 2 then
              ["At least 2 coordinate points are required"] else [])

/-- `createRoute` (src/lib/api.ts lines 384-487) up to the transport: the
auth-header check, then local validation, and only then the network call
(injected as `net`).  The second component records whether a network request
was issued. -/
noncomputable def apiCreateRoute (hasAuthHeader : Bool)
    (net : RouteRequest → ApiResult RouteResponse) (route : RouteRequest) :
    ApiResult RouteResponse × Bool :=
  if !hasAuthHeader then
    (⟨false, none, some "Not authenticated. Please log in again."⟩, false)
  else
    let errs := validationErrors route
    if errs.isEmpty then (net route, true)
    else (⟨false, none, some (String.intercalate ". " errs)⟩, false)

/-- Modelled from the spec: the EditBuffer point-editing engine is not part of
src/ — only its UI caller `EditRouteControls` (which receives an
`onDeletePoint` callback and disables the delete button at length at most 2)
is present.  Spec section 4.2: `deletePoint(index)` removes the point at
`index`; it is rejected as a no-op, reporting failure, if the resulting
length would drop below 2.  Returns the new buffer and whether the deletion
was applied. -/
def deletePoint (buf : List Coordinates) (index : ℕ) : List Coordinates × Bool :=
  if buf.length - 1 < 2 then (buf, false)
  else (buf.eraseIdx index, true)

/-! ## Concrete fixtures -/

/-- Environment with a given auth state and create service; the update and
delete services reject everything (they are irrelevant to the create
claims). -/
def mkEnv (auth : Bool) (create : RouteRequest → ApiResult RouteResponse) :
    RoutesEnv :=
  ⟨auth, create, fun _ _ => ⟨false, none, none⟩, fun _ => ⟨false, none, none⟩⟩

/-- The specification's test point list `[(0,0),(0,1),(1,1)]`. -/
def testPoints : List Coordinates := [⟨0, 0⟩, ⟨0, 1⟩, ⟨1, 1⟩]

/-- Valid create metadata with name `"Test"`, as in the specification's
unauthenticated-create test. -/
def testOptions : RouteCreateOptions :=
  { name := "Test", region := "Khumbu", minAltitude := 0, maxAltitude := 5000
    difficultyLevel := "MODERATE", description := none, trekName := none
    durationDays := none, distanceKm := none, coordinates := none }

/-- A concrete remote detail record with `distanceKm = 5` and
`durationDays = 2`. -/
def sampleResponse : RouteResponse :=
  { id := "r1", name := "Sample", trekName := none, description := none
    region := "Khumbu", minAltitude := 0, maxAltitude := 5000
    durationDays := some 2, distanceKm := some 5
    difficultyLevel := some "MODERATE"
    geometryCoordinates := some [(0, 0), (1, 0), (1, 1)]
    isActive := true, createdAt := "t0" }

/-- Create options carrying an explicit coordinate list, for the
coordinate-override claim. -/
def overrideCs : List Coordinates := [⟨0, 0⟩, ⟨1, 1⟩]

/-- Options whose `coordinates` field is `overrideCs`. -/
def overrideOptions : RouteCreateOptions :=
  { testOptions with coordinates := some overrideCs }

/-- A two-point buffer for the minimum-length deletion claim. -/
def testPair : List Coordinates := [⟨0, 0⟩, ⟨0, 1⟩]

/-- A create request failing validation: name shorter than 3 characters. -/
def badRequest : RouteRequest :=
  { name := "ab", region := "Khumbu", minAltitude := 0, maxAltitude := 1
    difficultyLevel := "MODERATE", distanceKm := none
    geometryCoordinates := [(0, 0), (0, 1)], description := none
    trekName := none, durationDays := none, isActive := true }

/-- A transport that always succeeds, for exercising the validation layer. -/
def anyNet : RouteRequest → ApiResult RouteResponse :=
  fun _ => ⟨true, some sampleResponse, none⟩

/-- Minimal route properties with a given id. -/
def plainProps (rid : String) : RouteProperties :=
  { id := rid, distance := 0, duration := 0, routeName := "W", roadType := none
    waypoints := none, createdAt := none, color := none, region := none
    minAltitude := none, maxAltitude := none, description := none
    trekName := none, durationDays := none, isActive := none }

/-- A stored route with id `"r1"`. -/
def routeW : RouteFeature := ⟨[(0, 0), (1, 1)], plainProps "r1"⟩

/-- A state holding exactly `routeW`, selected. -/
def stW : RoutesState := ⟨[routeW], some routeW⟩

/-- Environment whose update service always succeeds with `sampleResponse`. -/
def updOkEnv : RoutesEnv :=
  ⟨true, fun _ => ⟨false, none, none⟩, fun _ _ => ⟨true, some sampleResponse, none⟩,
    fun _ => ⟨false, none, none⟩⟩

/-- A stored local route (id carries the local prefix). -/
def routeL : RouteFeature := ⟨[(0, 0), (1, 0)], plainProps "local-1"⟩

/-- A state holding exactly `routeL`, selected. -/
def stL : RoutesState := ⟨[routeL], some routeL⟩

/-- Update options supplying only a user `durationDays` of 7. -/
def optsDur7 : UpdateOptions := { durationDays := some 7 }

/-- Update options supplying only an explicit `distanceKm` override of 7. -/
def optsDist7 : UpdateOptions := { distanceKm := some 7 }

/-- A degenerate two-point list with coinciding endpoints: its haversine
distance is exactly 0. -/
def dupPoints : List Coordinates := [⟨0, 0⟩, ⟨0, 0⟩]

/-- A remote detail record whose geometry has exactly one coordinate. -/
def onePointResponse : RouteResponse :=
  { sampleResponse with id := "one", geometryCoordinates := some [(0, 0)] }

/-- Summary advertising `onePointResponse` as active with geometry. -/
def oneSummary : RouteSummary := ⟨"one", "One", "R", true, true⟩

/-- Detail lookup resolving every id to `onePointResponse`. -/
def oneDetail : String → Option RouteResponse := fun _ => some onePointResponse

/-- Summary advertising `sampleResponse` as active with geometry. -/
def sampleSummary : RouteSummary := ⟨"r1", "Sample", "Khumbu", true, true⟩

/-- Detail lookup resolving every id to `sampleResponse`. -/
def sampleDetail : String → Option RouteResponse := fun _ => some sampleResponse

/-! ## Geometry lemmas -/

theorem hav_symm (p q : Coordinates) : hav p q = hav q p := by
  unfold hav
  rw [show (p.lat * Real.pi / 180 - q.lat * Real.pi / 180) / 2
      = -((q.lat * Real.pi / 180 - p.lat * Real.pi / 180) / 2) by ring]
  rw [show (p.lng - q.lng) * Real.pi / 180 / 2
      = -((q.lng - p.lng) * Real.pi / 180 / 2) by ring]
  rw [Real.sin_neg, Real.sin_neg, neg_sq, neg_sq]
  ring

theorem segmentDistance_symm (p q : Coordinates) :
    segmentDistance p q = segmentDistance q p := by
  unfold segmentDistance
  rw [hav_symm]

theorem hav_self (p : Coordinates) : hav p p = 0 := by
  unfold hav
  simp

theorem atan2_zero_one : atan2 0 1 = 0 := by
  unfold atan2
  rw [if_pos (by norm_num : (0:ℝ) < 1)]
  simp

theorem segmentDistance_self (p : Coordinates) : segmentDistance p p = 0 := by
  unfold segmentDistance
  rw [hav_self]
  simp [atan2_zero_one]

theorem calculateDistance_pair_self (p : Coordinates) :
    calculateDistance [p, p] = 0 := by
  simp [calculateDistance, segmentDistance_self]

/-- C9: for any two coordinates `a` and `b`, the computed distance of the
two-point list `[a, b]` equals that of `[b, a]` — the haversine segment
distance of `calculateDistance` is symmetric in its endpoints. -/
theorem calculateDistance_pair_symm (a b : Coordinates) :
    calculateDistance [a, b] = calculateDistance [b, a] := by
  simp [calculateDistance, segmentDistance_symm a b]

/-! ## Create claims -/

/-- C1: the code evaluated at the claim's input.  An unauthenticated create
with point list `[(0,0),(0,1),(1,1)]` and valid metadata (name `"Test"`) does
NOT synthesize a local route: `addRoute` returns `false`, leaves the
collection unchanged and the selection empty, emits the
`Authentication Required` toast, invokes `onAuthRequired` once, and issues no
remote request — contradicting the claimed local-save branch (which the
repository's own UI text promises but the code does not implement). -/
theorem addRoute_unauthenticated_rejected :
    addRoute (mkEnv false fun _ => ⟨true, some sampleResponse, none⟩)
        testPoints testOptions ⟨[], none⟩ =
      ⟨false, ⟨[], none⟩, [authRequiredCreateToast], 1, []⟩ :=
  rfl

/-- C3: an authenticated create whose remote service returns a non-success
result with an auth-patterned message (contains `"401"`, `"unauthorized"` or
`"not authenticated"`, case-insensitively) produces exactly one
`Session Expired` toast, invokes `onAuthRequired` exactly once, adds no route
to the collection (the state is unchanged), and returns `false`. -/
theorem addRoute_sessionExpired (points : List Coordinates)
    (options : RouteCreateOptions) (st : RoutesState) (msg : String)
    (hmsg : respIsAuthError (some msg) = true) :
    (addRoute (mkEnv true fun _ => ⟨false, none, some msg⟩) points options st).ok
        = false ∧
      (addRoute (mkEnv true fun _ => ⟨false, none, some msg⟩) points options st).state
        = st ∧
      (addRoute (mkEnv true fun _ => ⟨false, none, some msg⟩) points options st).toasts
        = [sessionExpiredToast] ∧
      (addRoute (mkEnv true fun _ => ⟨false, none, some msg⟩) points options
            st).authRequiredCalls = 1 := by
  refine ⟨?_, ?_, ?_, ?_⟩ <;>
    simp [addRoute, addRouteCore, mkEnv, remoteFailureResult, hmsg]

/-- Witness for C3 at the concrete message the api layer produces on a 401. -/
theorem addRoute_sessionExpired_witness :
    respIsAuthError (some "Session expired (401). Please log in again.") = true ∧
      ((addRoute (mkEnv true fun _ =>
            ⟨false, none, some "Session expired (401). Please log in again."⟩)
          testPoints testOptions ⟨[], none⟩).ok = false ∧
        (addRoute (mkEnv true fun _ =>
            ⟨false, none, some "Session expired (401). Please log in again."⟩)
          testPoints testOptions ⟨[], none⟩).state = ⟨[], none⟩ ∧
        (addRoute (mkEnv true fun _ =>
            ⟨false, none, some "Session expired (401). Please log in again."⟩)
          testPoints testOptions ⟨[], none⟩).toasts = [sessionExpiredToast] ∧
        (addRoute (mkEnv true fun _ =>
            ⟨false, none, some "Session expired (401). Please log in again."⟩)
          testPoints testOptions ⟨[], none⟩).authRequiredCalls = 1) :=
  ⟨by decide, addRoute_sessionExpired testPoints testOptions ⟨[], none⟩ _ (by decide)⟩

/-- C10: a create whose options carry a non-empty `coordinates` array uses it
in place of the `points` parameter: the effective point list is
`options.coordinates`, the request geometry and (absent an explicit
`distanceKm`) the calculated request distance are derived from it, and the
whole operation is independent of the `points` argument. -/
theorem addRoute_coordinates_override (options : RouteCreateOptions)
    (cs : List Coordinates) (h1 : options.coordinates = some cs)
    (h2 : cs ≠ []) :
    (∀ points, effectivePoints points options = cs) ∧
      (∀ points,
        (buildCreateRequest (effectivePoints points options)
            options).geometryCoordinates = toWire cs) ∧
      (options.distanceKm = none → ∀ points,
        (buildCreateRequest (effectivePoints points options) options).distanceKm
          = some (calculateDistance cs / 1000)) ∧
      ∀ env st points points',
        addRoute env points options st = addRoute env points' options st := by
  have heff : ∀ points, effectivePoints points options = cs := by
    intro points
    unfold effectivePoints
    rw [h1]
    simp [List.length_pos.mpr h2]
  refine ⟨heff, fun points => ?_, fun hd points => ?_, ?_⟩
  · rw [heff]
    rfl
  · rw [heff]
    simp [buildCreateRequest, hd]
  intro env st points points'
  unfold addRoute
  rw [heff, heff]

/-- Witness for C10 at concrete override coordinates. -/
theorem addRoute_coordinates_override_witness :
    overrideOptions.coordinates = some overrideCs ∧ overrideCs ≠ [] ∧
      ((∀ points, effectivePoints points overrideOptions = overrideCs) ∧
        (∀ points,
          (buildCreateRequest (effectivePoints points overrideOptions)
              overrideOptions).geometryCoordinates = toWire overrideCs) ∧
        (overrideOptions.distanceKm = none → ∀ points,
          (buildCreateRequest (effectivePoints points overrideOptions)
              overrideOptions).distanceKm
            = some (calculateDistance overrideCs / 1000)) ∧
        ∀ env st points points',
          addRoute env points overrideOptions st
            = addRoute env points' overrideOptions st) :=
  ⟨rfl, by simp [overrideCs],
    addRoute_coordinates_override overrideOptions overrideCs rfl
      (by simp [overrideCs])⟩

/-! ## Edit-buffer claim -/

/-- C6: `deletePoint` on a buffer of length exactly 2 is rejected as a no-op
by the editing engine itself: the buffer is returned unchanged (length stays
2) and failure is reported, for any index. -/
theorem deletePoint_min_length (buf : List Coordinates) (index : ℕ)
    (h : buf.length = 2) : deletePoint buf index = (buf, false) := by
  unfold deletePoint
  rw [h]
  norm_num

/-- Witness for C6 at a concrete two-point buffer. -/
theorem deletePoint_min_length_witness :
    testPair.length = 2 ∧ deletePoint testPair 0 = (testPair, false) :=
  ⟨rfl, deletePoint_min_length testPair 0 rfl⟩

/-! ## Validation claim -/

theorem validationErrors_badRequest :
    validationErrors badRequest = ["Route name must be at least 3 characters"] := by
  unfold validationErrors
  rw [if_pos (show badRequest.name.length < 3 by decide),
    if_neg (show ¬ badRequest.region = "" by decide),
    if_neg (show ¬ badRequest.minAltitude < 0 by norm_num [badRequest]),
    if_neg (show ¬ badRequest.maxAltitude ≤ 0 by norm_num [badRequest]),
    if_neg (show ¬ badRequest.difficultyLevel = "" by decide),
    if_neg (show ¬ badRequest.geometryCoordinates.length < 2 by decide)]
  simp

/-- C7: `createRoute` performs the local validation before any network call:
a network request is only ever issued when the validation error list is
empty, and whenever some check fails the operation aborts with a non-success
result, no network request, and (when the auth header was present, so that
validation is actually reached) the joined validation messages. -/
theorem apiCreateRoute_validation (hasAuthHeader : Bool)
    (net : RouteRequest → ApiResult RouteResponse) (route : RouteRequest) :
    ((apiCreateRoute hasAuthHeader net route).2 = true →
        validationErrors route = []) ∧
      (validationErrors route ≠ [] →
        (apiCreateRoute hasAuthHeader net route).2 = false ∧
          (apiCreateRoute hasAuthHeader net route).1.success = false) ∧
      (hasAuthHeader = true → validationErrors route ≠ [] →
        (apiCreateRoute hasAuthHeader net route).1.message
          = some (String.intercalate ". " (validationErrors route))) := by
  cases hasAuthHeader with
  | false => simp [apiCreateRoute]
  | true =>
    by_cases he : validationErrors route = [] <;>
      simp [apiCreateRoute, he]

/-- Witness for C7: the short-named request is rejected without a network
call. -/
theorem apiCreateRoute_validation_witness :
    validationErrors badRequest ≠ [] ∧
      ((apiCreateRoute true anyNet badRequest).2 = false ∧
        (apiCreateRoute true anyNet badRequest).1.success = false) :=
  ⟨by rw [validationErrors_badRequest]; simp,
    (apiCreateRoute_validation true anyNet badRequest).2.1
      (by rw [validationErrors_badRequest]; simp)⟩

/-! ## Selection claims -/

theorem selectRoute_of_find_none {rid : String} {st : RoutesState}
    (h : st.routes.find? (fun r => r.properties.id = rid) = none) :
    selectRoute rid st = st := by
  unfold selectRoute
  rw [h]

theorem selectRoute_of_find_some {rid : String} {st : RoutesState}
    {found : RouteFeature}
    (h : st.routes.find? (fun r => r.properties.id = rid) = some found) :
    selectRoute rid st = ⟨st.routes, some found⟩ := by
  unfold selectRoute
  rw [h]

/-- C8 (amended): the listed operations behave as claimed and preserve the
selection invariant: selecting an id absent from the collection leaves the
state unchanged; removing the selected route's id nulls the selection while
removing any other id leaves it untouched; both `selectRoute` and
`removeRoute` preserve the invariant (`deleteRoute`'s branches apply
`removeRoute`).  A successful remote update targeting an absent id, however,
breaks the invariant (see the counterexample). -/
theorem selection_invariant_ops (st : RoutesState) (rid : String) :
    ((∀ r ∈ st.routes, r.properties.id ≠ rid) → selectRoute rid st = st) ∧
      (∀ r, st.selectedRoute = some r → r.properties.id = rid →
        (removeRoute rid st).selectedRoute = none) ∧
      (∀ r, st.selectedRoute = some r → r.properties.id ≠ rid →
        (removeRoute rid st).selectedRoute = some r) ∧
      (selectionInvariant st →
        selectionInvariant (selectRoute rid st) ∧
          selectionInvariant (removeRoute rid st)) := by
  refine ⟨?_, ?_, ?_, ?_⟩
  · intro habs
    have hfind : st.routes.find? (fun r => r.properties.id = rid) = none := by
      rw [List.find?_eq_none]
      intro r hr
      simp [habs r hr]
    unfold selectRoute
    rw [hfind]
  · intro r hsel hid
    simp [removeRoute, hsel, hid]
  · intro r hsel hid
    simp [removeRoute, hsel, hid]
  · intro hinv
    constructor
    · cases hfind : st.routes.find? (fun x => x.properties.id = rid) with
      | none =>
        rw [selectRoute_of_find_none hfind]
        exact hinv
      | some found =>
        rw [selectRoute_of_find_some hfind]
        intro r hr
        have hfr : found = r := Option.some.inj hr
        subst hfr
        exact ⟨found, List.mem_of_find?_eq_some hfind, rfl⟩
    · cases hsel : st.selectedRoute with
      | none =>
        intro r hr
        have hnone : (removeRoute rid st).selectedRoute = none := by
          simp [removeRoute, hsel]
        rw [hnone] at hr
        exact absurd hr (by simp)
      | some prev =>
        by_cases hid : prev.properties.id = rid
        · intro r hr
          have hnone : (removeRoute rid st).selectedRoute = none := by
            simp [removeRoute, hsel, hid]
          rw [hnone] at hr
          exact absurd hr (by simp)
        · intro r hr
          have hsome : (removeRoute rid st).selectedRoute = some prev := by
            simp [removeRoute, hsel, hid]
          rw [hsome] at hr
          have hpr : prev = r := Option.some.inj hr
          subst hpr
          obtain ⟨r', hr'mem, hr'id⟩ := hinv prev hsel
          refine ⟨r', List.mem_filter.mpr ⟨hr'mem, ?_⟩, hr'id⟩
          simp [hr'id, hid]

/-- Witness for C8 at a concrete one-route state. -/
theorem selection_invariant_ops_witness :
    ((∀ r ∈ stW.routes, r.properties.id ≠ "r2") ∧ selectRoute "r2" stW = stW) ∧
      (stW.selectedRoute = some routeW ∧
        (removeRoute "r1" stW).selectedRoute = none) ∧
      (removeRoute "r2" stW).selectedRoute = some routeW :=
  ⟨⟨by simp [stW, routeW, plainProps],
      (selection_invariant_ops stW "r2").1 (by simp [stW, routeW, plainProps])⟩,
    ⟨rfl, (selection_invariant_ops stW "r1").2.1 routeW rfl rfl⟩,
    (selection_invariant_ops stW "r2").2.2.1 routeW rfl
      (by simp [routeW, plainProps])⟩

/-- C8 counterexample: the invariant is NOT preserved by every operation.  A
successful remote update targeting an id absent from the collection (here the
empty collection) leaves the collection empty but sets the selection to the
converted response route, so the selection no longer references a member of
the collection. -/
theorem updateRoute_breaks_selection_invariant :
    selectionInvariant ⟨[], none⟩ ∧
      ¬ selectionInvariant (updateRoute updOkEnv "r1" [] {} ⟨[], none⟩).state := by
  constructor
  · intro r hr
    simp at hr
  · intro hinv
    have hstate : (updateRoute updOkEnv "r1" [] {} ⟨[], none⟩).state
        = ⟨[], some (routeResponseToFeature sampleResponse)⟩ := by
      simp [updateRoute, updOkEnv, strStartsWith]
    rw [hstate] at hinv
    obtain ⟨r', hmem, _⟩ := hinv (routeResponseToFeature sampleResponse) rfl
    simp at hmem

/-! ## Metric-consistency claims -/

theorem updateRoute_local_selected (env : RoutesEnv) (rid : String)
    (points : List Coordinates) (options : UpdateOptions) (st : RoutesState)
    (prev : RouteFeature) (hlocal : strStartsWith rid "local-" = true)
    (hsel : st.selectedRoute = some prev) (hid : prev.properties.id = rid) :
    (updateRoute env rid points options st).state.selectedRoute
      = some (applyLocalUpdate points options
          (options.distanceKm.getD (calculateDistance points / 1000) * 1000)
          (options.durationDays.getD
            (options.distanceKm.getD (calculateDistance points / 1000) * 72))
          prev) := by
  simp [updateRoute, hlocal, hsel, hid]

/-- C2 (amended): `distanceMeters`/`durationSeconds` are NOT maintained as
values recomputed from the geometry.  On wire conversion the stored duration
is `(durationDays || 0) * 24 * 3600` and the stored distance is
`(distanceKm || 0) * 1000`, both taken from wire metadata; on a local update
the stored duration is the user-supplied `options.durationDays` whenever it
is present and only falls back to the `distanceKm * 72` heuristic when it is
absent. -/
theorem duration_follows_durationDays :
    (∀ resp : RouteResponse,
      (routeResponseToFeature resp).properties.duration
          = resp.durationDays.getD 0 * 24 * 3600 ∧
        (routeResponseToFeature resp).properties.distance
          = resp.distanceKm.getD 0 * 1000) ∧
      ∀ (env : RoutesEnv) (rid : String) (points : List Coordinates)
        (options : UpdateOptions) (st : RoutesState) (prev : RouteFeature),
        strStartsWith rid "local-" = true → st.selectedRoute = some prev →
          prev.properties.id = rid →
          ∃ r, (updateRoute env rid points options st).state.selectedRoute
              = some r ∧
            r.properties.duration
              = options.durationDays.getD
                  (options.distanceKm.getD (calculateDistance points / 1000) * 72) := by
  refine ⟨fun resp => ⟨rfl, rfl⟩, ?_⟩
  intro env rid points options st prev hlocal hsel hid
  exact ⟨applyLocalUpdate points options
      (options.distanceKm.getD (calculateDistance points / 1000) * 1000)
      (options.durationDays.getD
        (options.distanceKm.getD (calculateDistance points / 1000) * 72)) prev,
    updateRoute_local_selected env rid points options st prev hlocal hsel hid, rfl⟩

/-- Witness for C2 (amended) at a concrete local update carrying
`durationDays = 7`. -/
theorem duration_follows_durationDays_witness :
    strStartsWith "local-1" "local-" = true ∧ stL.selectedRoute = some routeL ∧
      routeL.properties.id = "local-1" ∧
      ∃ r, (updateRoute updOkEnv "local-1" testPair optsDur7 stL).state.selectedRoute
          = some r ∧
        r.properties.duration
          = optsDur7.durationDays.getD
              (optsDur7.distanceKm.getD (calculateDistance testPair / 1000) * 72) :=
  ⟨by decide, rfl, rfl,
    duration_follows_durationDays.2 updOkEnv "local-1" testPair optsDur7 stL routeL
      (by decide) rfl rfl⟩

/-- C2 counterexample: the converted route of `sampleResponse`
(`distanceKm = 5`, `durationDays = 2`) stores duration `172800` seconds
(taken from the user-supplied `durationDays`), which differs from the
`(distanceMeters/1000) * 72` heuristic value `360` — so the duration is
neither recomputed from the geometry nor independent of `durationDays`. -/
theorem routeResponse_duration_not_heuristic :
    routeResponseToFeature sampleResponse
        ∈ (applyFetchedRoutes (fetchRoutesCore [sampleSummary] sampleDetail)
            ⟨[], none⟩).1.routes ∧
      (routeResponseToFeature sampleResponse).properties.duration = 172800 ∧
      (routeResponseToFeature sampleResponse).properties.duration
        ≠ (routeResponseToFeature sampleResponse).properties.distance / 1000 * 72 := by
  have hdur : (routeResponseToFeature sampleResponse).properties.duration = 172800 := by
    show sampleResponse.durationDays.getD 0 * 24 * 3600 = 172800
    norm_num [sampleResponse]
  have hdist : (routeResponseToFeature sampleResponse).properties.distance = 5000 := by
    show sampleResponse.distanceKm.getD 0 * 1000 = 5000
    norm_num [sampleResponse]
  have hcore : fetchRoutesCore [sampleSummary] sampleDetail
      = [routeResponseToFeature sampleResponse] := by
    simp [fetchRoutesCore, sampleSummary, sampleDetail, routeResponseToFeature,
      sampleResponse]
  refine ⟨?_, hdur, ?_⟩
  · rw [hcore]
    simp [applyFetchedRoutes]
  · rw [hdur, hdist]
    norm_num

/-! ## Local-update claim -/

/-- C4 (amended): an update whose target id carries the local prefix applies
the edit in memory regardless of authentication: it returns `true`, issues no
remote request, emits no toast at all (so no auth-error notification), makes
no `onAuthRequired` call, and rewrites the matching stored route with
`applyLocalUpdate` — geometry replaced by the new points, waypoints
recomputed, metadata merged from the changed option fields, and the distance
set to `distanceKm * 1000` where `distanceKm` is recomputed from the geometry
unless the caller supplies an explicit `distanceKm` override (the override is
stored instead, see the counterexample). -/
theorem updateRoute_local_applies_edit (env : RoutesEnv) (rid : String)
    (points : List Coordinates) (options : UpdateOptions) (st : RoutesState)
    (hlocal : strStartsWith rid "local-" = true) :
    (updateRoute env rid points options st).ok = true ∧
      (updateRoute env rid points options st).requestsSent = [] ∧
      (updateRoute env rid points options st).toasts = [] ∧
      (updateRoute env rid points options st).authRequiredCalls = 0 ∧
      (updateRoute env rid points options st).state.routes
        = st.routes.map (fun route =>
            if route.properties.id = rid then
              applyLocalUpdate points options
                (options.distanceKm.getD (calculateDistance points / 1000) * 1000)
                (options.durationDays.getD
                  (options.distanceKm.getD (calculateDistance points / 1000) * 72))
                route
            else route) ∧
      (∀ (route : RouteFeature) (dM dur : ℝ),
        (applyLocalUpdate points options dM dur route).coordinates = toWire points ∧
          (applyLocalUpdate points options dM dur route).properties.waypoints
            = some (waypointsFor points) ∧
          (applyLocalUpdate points options dM dur route).properties.distance = dM ∧
          (applyLocalUpdate points options dM dur route).properties.routeName
            = jsStrOr options.name route.properties.routeName) ∧
      (options.distanceKm = none →
        options.distanceKm.getD (calculateDistance points / 1000) * 1000
          = calculateDistance points) := by
  refine ⟨?_, ?_, ?_, ?_, ?_, fun route dM dur => ⟨rfl, rfl, rfl, rfl⟩, ?_⟩ <;>
    try simp [updateRoute, hlocal]
  intro hnone
  rw [hnone]
  simp [div_mul_cancel₀ (calculateDistance points) (by norm_num : (1000:ℝ) ≠ 0)]

/-- Witness for C4 (amended) at a concrete local-id update. -/
theorem updateRoute_local_applies_edit_witness :
    strStartsWith "local-1" "local-" = true ∧
      ((updateRoute updOkEnv "local-1" testPair {} stL).ok = true ∧
        (updateRoute updOkEnv "local-1" testPair {} stL).requestsSent = [] ∧
        (updateRoute updOkEnv "local-1" testPair {} stL).toasts = [] ∧
        (updateRoute updOkEnv "local-1" testPair {} stL).authRequiredCalls = 0 ∧
        (updateRoute updOkEnv "local-1" testPair {} stL).state.routes
          = stL.routes.map (fun route =>
              if route.properties.id = "local-1" then
                applyLocalUpdate testPair {}
                  (({} : UpdateOptions).distanceKm.getD
                    (calculateDistance testPair / 1000) * 1000)
                  (({} : UpdateOptions).durationDays.getD
                    (({} : UpdateOptions).distanceKm.getD
                      (calculateDistance testPair / 1000) * 72))
                  route
              else route) ∧
        (∀ (route : RouteFeature) (dM dur : ℝ),
          (applyLocalUpdate testPair {} dM dur route).coordinates
              = toWire testPair ∧
            (applyLocalUpdate testPair {} dM dur route).properties.waypoints
              = some (waypointsFor testPair) ∧
            (applyLocalUpdate testPair {} dM dur route).properties.distance = dM ∧
            (applyLocalUpdate testPair {} dM dur route).properties.routeName
              = jsStrOr ({} : UpdateOptions).name route.properties.routeName) ∧
        (({} : UpdateOptions).distanceKm = none →
          ({} : UpdateOptions).distanceKm.getD
              (calculateDistance testPair / 1000) * 1000
            = calculateDistance testPair)) :=
  ⟨by decide,
    updateRoute_local_applies_edit updOkEnv "local-1" testPair {} stL (by decide)⟩

/-- C4 counterexample: a local-id update carrying an explicit
`distanceKm = 7` override on a degenerate geometry (two coinciding points,
haversine distance exactly 0) stores distance `7000`, not the value
recomputed from the geometry — so the stored distance is not always
recomputed. -/
theorem updateRoute_local_distance_not_recomputed :
    calculateDistance dupPoints = 0 ∧
      ∃ r, (updateRoute updOkEnv "local-1" dupPoints optsDist7 stL).state.selectedRoute
          = some r ∧
        r ∈ (updateRoute updOkEnv "local-1" dupPoints optsDist7 stL).state.routes ∧
        r.properties.distance = 7000 ∧
        r.properties.distance ≠ calculateDistance dupPoints := by
  have hcalc : calculateDistance dupPoints = 0 := calculateDistance_pair_self ⟨0, 0⟩
  have hdist : optsDist7.distanceKm.getD (calculateDistance dupPoints / 1000) * 1000
      = (7000 : ℝ) := by
    norm_num [optsDist7]
  refine ⟨hcalc, applyLocalUpdate dupPoints optsDist7
      (optsDist7.distanceKm.getD (calculateDistance dupPoints / 1000) * 1000)
      (optsDist7.durationDays.getD
        (optsDist7.distanceKm.getD (calculateDistance dupPoints / 1000) * 72))
      routeL, ?_, ?_, ?_, ?_⟩
  · exact updateRoute_local_selected updOkEnv "local-1" dupPoints optsDist7 stL
      routeL (by decide) rfl rfl
  · have hroutes : (updateRoute updOkEnv "local-1" dupPoints optsDist7 stL).state.routes
        = [applyLocalUpdate dupPoints optsDist7
            (optsDist7.distanceKm.getD (calculateDistance dupPoints / 1000) * 1000)
            (optsDist7.durationDays.getD
              (optsDist7.distanceKm.getD (calculateDistance dupPoints / 1000) * 72))
            routeL] := by
      have hloc : strStartsWith "local-1" "local-" = true := by decide
      simp [updateRoute, hloc, stL, routeL, plainProps]
    rw [hroutes]
    simp
  · exact hdist
  · show optsDist7.distanceKm.getD (calculateDistance dupPoints / 1000) * 1000
        ≠ calculateDistance dupPoints
    rw [hdist, hcalc]
    norm_num

/-! ## Geometry-length claims -/

/-- C5 (amended): every route entering the collection through the load
pipeline has a geometry of at least 1 coordinate — the `fetchRoutes` filter
only rejects empty geometries, so the claimed lower bound of 2 is not
enforced (see the counterexample, where a single-point wire geometry is
admitted). -/
theorem fetchRoutesCore_geometry_nonempty (summaries : List RouteSummary)
    (detail : String → Option RouteResponse) (f : RouteFeature)
    (hf : f ∈ fetchRoutesCore summaries detail) : 1 ≤ f.coordinates.length := by
  unfold fetchRoutesCore at hf
  have hp := (List.mem_filter.mp hf).2
  simpa using hp

/-- Witness for C5 (amended) at the single-summary fetch. -/
theorem fetchRoutesCore_geometry_nonempty_witness :
    routeResponseToFeature onePointResponse ∈ fetchRoutesCore [oneSummary] oneDetail ∧
      1 ≤ (routeResponseToFeature onePointResponse).coordinates.length :=
  ⟨by simp [fetchRoutesCore, oneSummary, oneDetail, routeResponseToFeature,
      onePointResponse, sampleResponse],
    fetchRoutesCore_geometry_nonempty [oneSummary] oneDetail _
      (by simp [fetchRoutesCore, oneSummary, oneDetail, routeResponseToFeature,
        onePointResponse, sampleResponse])⟩

/-- C5 counterexample: a wire record with exactly one coordinate passes the
load filter and enters the collection selected, with geometry length 1 < 2. -/
theorem fetch_admits_single_point_geometry :
    ∃ f, f ∈ (applyFetchedRoutes (fetchRoutesCore [oneSummary] oneDetail)
          ⟨[], none⟩).1.routes ∧
      f.coordinates.length < 2 := by
  have hcore : fetchRoutesCore [oneSummary] oneDetail
      = [routeResponseToFeature onePointResponse] := by
    simp [fetchRoutesCore, oneSummary, oneDetail, routeResponseToFeature,
      onePointResponse, sampleResponse]
  refine ⟨routeResponseToFeature onePointResponse, ?_, ?_⟩
  · rw [hcore]
    simp [applyFetchedRoutes]
  · simp [routeResponseToFeature, onePointResponse, sampleResponse]

end RouteViz
